import Mathlib

/-!
Verification development for the SkillLens backend (Node/Express, `src/backend`).

The JavaScript source is shallowly embedded: objects become structures,
`Map` becomes an association list with JavaScript `Map` semantics
(`set` overwrites the value of an existing key in place, otherwise appends),
strings are Lean `String` (a list of characters), JS numbers appearing in the
scoring code are embedded as `Nat`/`Int`/`Rat` with JS `Math.round`/`Math.min`
/`Math.max` made explicit.  Regular-expression tests and counts from
`services/atsScorer.js` are embedded as executable character-list scans that
follow the semantics of the concrete regexes appearing in the source.
-/

namespace SkillLens

/-! ## Generic JavaScript-flavoured string utilities -/

/-- JS `String.prototype.includes`: `sub` occurs contiguously in `hay`. -/
def containsSub (hay sub : String) : Bool :=
  (List.range (hay.data.length + 1)).any fun i => sub.data.isPrefixOf (hay.data.drop i)

/-- Whitespace class used by JS `trim` and the regex class `\s`
(modelled on the ASCII part: space, tab, newline, carriage return,
vertical tab, form feed). -/
def isJsWS (c : Char) : Bool :=
  c == ' ' || c == '\t' || c == '\n' || c == '\r' || c == '\x0b' || c == '\x0c'

/-- JS `String.prototype.trim`. -/
def jsTrim (s : String) : String :=
  String.mk (((s.data.dropWhile isJsWS).reverse.dropWhile isJsWS).reverse)

/-- JS `String.prototype.slice(0, n)` / `substring(0, n)`. -/
def jsSlice (s : String) (n : Nat) : String :=
  String.mk (s.data.take n)

/-- JS `String.prototype.toLowerCase` (ASCII). -/
def jsToLower (s : String) : String :=
  String.mk (s.data.map Char.toLower)

/-- The JS word-character class `\w` = `[A-Za-z0-9_]`, used by the
regex boundary assertion `\b`. -/
def isWordChar (c : Char) : Bool :=
  c.isAlphanum || c == '_'

/-- Is the character at index `i` a word character?  Out-of-range positions
count as non-word, matching the virtual boundaries at the ends of a string. -/
def isWordAt (cs : List Char) (i : Nat) : Bool :=
  match cs.get? i with
  | some c => isWordChar c
  | none => false

/-- JS `Math.round` on an exact rational: round half toward positive infinity. -/
def jsRound (q : ℚ) : ℤ := ⌊q + 1 / 2⌋

/-- JS `Math.round (a / b)` for natural `a` and positive natural `b`,
computed exactly: `⌊a / b + 1 / 2⌋ = (2 * a + b) / (2 * b)` in `Nat` division. -/
def jsRoundDiv (a b : Nat) : Nat := (2 * a + b) / (2 * b)

/-- Split on the regex `/\r?\n/`: split at `'\n'`, and strip one carriage
return from the end of every chunk that was terminated by a `'\n'`
(i.e. every chunk but the last). -/
def mapAllButLast (f : List Char → List Char) : List (List Char) → List (List Char)
  | [] => []
  | [x] => [x]
  | x :: xs => f x :: mapAllButLast f xs

/-- Drop a single trailing `'\r'` if present. -/
def dropCR (l : List Char) : List Char :=
  if l.getLast? == some '\r' then l.dropLast else l

/-- `text.split(/\r?\n/)` from `scoreResume`. -/
def splitRN (s : String) : List String :=
  (mapAllButLast dropCR (s.data.splitOn '\n')).map String.mk

/-! ## JS `Map` semantics over an association list

`Map.prototype.set` on an existing key overwrites the value but keeps the
key's original position in insertion order; on a new key it appends. -/

variable {α : Type}

/-- JS `Map.prototype.get` (`none` = `undefined`). -/
def mapGet (m : List (String × α)) (k : String) : Option α :=
  (m.find? fun p => p.1 == k).map (·.2)

/-- JS `Map.prototype.set`: overwrite the value of an existing key in place
(keys are unique in a JS `Map`), otherwise append at the end. -/
def mapSet : List (String × α) → String → α → List (String × α)
  | [], k, v => [(k, v)]
  | p :: m, k, v => if p.1 == k then (k, v) :: m else p :: mapSet m k v

/-- JS `Map.prototype.has`. -/
def mapHas (m : List (String × α)) (k : String) : Bool :=
  m.any fun p => p.1 == k

/-- JS `Map.prototype.delete`. -/
def mapDelete (m : List (String × α)) (k : String) : List (String × α) :=
  m.filter fun p => !(p.1 == k)

theorem mapGet_mapSet_self (m : List (String × α)) (k : String) (v : α) :
    mapGet (mapSet m k v) k = some v := by
  induction m with
  | nil => simp [mapGet, mapSet]
  | cons p m ih =>
    by_cases hp : p.1 = k
    · simp [mapGet, mapSet, hp]
    · simpa [mapGet, mapSet, hp] using ih

theorem mapGet_mapSet_ne (m : List (String × α)) (k k' : String) (v : α)
    (h : k' ≠ k) : mapGet (mapSet m k v) k' = mapGet m k' := by
  have hk' : ¬ k = k' := fun e => h e.symm
  induction m with
  | nil => simp [mapGet, mapSet, hk']
  | cons p m ih =>
    by_cases hp : p.1 = k
    · simp [mapGet, mapSet, hp, hk']
    · by_cases hp' : p.1 = k'
      · simp [mapGet, mapSet, hp, hp', h]
      · simpa [mapGet, mapSet, hp, hp'] using ih

/-! ## Data model

`AnalysisResult` as produced by the external AI service and consumed by
`scoreResume` (`skills`, `categories`, `confidence_scores`); carried
confidences are rationals (the AnalysisResult contract puts them in `[0,1]`,
stated as a hypothesis where a theorem needs it). -/

structure Analysis where
  skills : List String
  categories : List (String × List String)
  confidence_scores : List (String × ℚ)
deriving DecidableEq

/-- The six-field `breakdown` object of an ATS result. -/
structure Breakdown where
  sections : ℤ
  keywords : ℤ
  formatting : ℤ
  impact : ℤ
  quantification : ℤ
  contact : ℤ
deriving DecidableEq

/-- The `meta` object of an ATS result. -/
structure ATSMeta where
  skillsCount : ℕ
  categories : List String
  avgConfidence : ℚ
deriving DecidableEq

/-- Return value of `scoreResume`; `breakdown = none` and `meta = none`
model the empty objects `{}` of the degenerate return. -/
structure ATSResult where
  score : ℤ
  breakdown : Option Breakdown
  meta : Option ATSMeta
  suggestions : List String
  version : String
deriving DecidableEq

/-! ## `services/atsScorer.js`: regex scans -/

/-- Word boundary `\b` immediately before position `i`, for a match whose
first character is a word character (start of string counts as non-word). -/
def boundaryBefore (cs : List Char) (i : ℕ) : Bool :=
  decide (i = 0) || !isWordAt cs (i - 1)

/-- `countMatches(text, regex)` for the whole-word regexes
`new RegExp('\\b' ++ v ++ '\\b', 'g')` built over the action verbs: the
number of occurrences of `w` in `cs` delimited by word boundaries on both
sides.  (Both-side boundaries make matches pairwise disjoint, so this equals
the global non-overlapping match count.) -/
def wordCount (cs w : List Char) : ℕ :=
  (List.range cs.length).countP fun i =>
    w.isPrefixOf (cs.drop i) && boundaryBefore cs i && !isWordAt cs (i + w.length)

/-- One section detector of `SECTION_REGEX`: a case-insensitive alternation
with a trailing `\b`, e.g. `/(contact|email|phone|linkedin|github|portfolio)\b/i`.
`test` is existence of a match; the haystack is passed already lowered and the
alternatives are lowercase.  Every alternative ends in a word character, so the
trailing boundary holds exactly when the following position is not a word
character. -/
def altTest (alts : List String) (lower : List Char) : Bool :=
  (List.range (lower.length + 1)).any fun i =>
    alts.any fun a =>
      a.data.isPrefixOf (lower.drop i) && !isWordAt lower (i + a.data.length)

/-- The `ACTION_VERBS` array. -/
def ACTION_VERBS : List String :=
  ["led", "managed", "developed", "built", "designed", "implemented", "optimized",
   "improved", "launched", "created", "architected", "delivered", "owned", "migrated",
   "automated", "deployed", "reduced", "increased", "enhanced", "streamlined",
   "refactored", "mentored", "collaborated", "analyzed", "prototyped", "tested"]

/-- The `SECTION_REGEX` table as (key, lowercase alternatives); `ph\.?d` is
expanded to its two alternatives. -/
def SECTION_REGEX : List (String × List String) :=
  [("contact", ["contact", "email", "phone", "linkedin", "github", "portfolio"]),
   ("summary", ["summary", "objective", "profile"]),
   ("experience", ["experience", "employment", "work history", "professional experience"]),
   ("education", ["education", "degree", "bachelor", "master", "ph.d", "phd", "university", "college"]),
   ("skills", ["skills", "technical skills", "technologies", "tooling"]),
   ("projects", ["projects", "personal projects", "selected projects"]),
   ("certifications", ["certifications", "certificates", "licenses"])]

/-- One attempted match of `/(^|\n)\s*(•|\-|\*)\s+/` at position `i`:
returns the number of characters consumed on success.  `(^|\n)` matches
zero-width at position 0 (the regex is not multiline) or consumes a `'\n'`;
`\s*` then greedily takes whitespace, a bullet character must follow, and
`\s+` requires at least one more whitespace character. -/
def bulletMatchLen (cs : List Char) (i : ℕ) : Option ℕ :=
  let j := if i = 0 then i else i + 1
  if i ≠ 0 ∧ cs.get? i ≠ some '\n' then none
  else
    let w1 := ((cs.drop j).takeWhile isJsWS).length
    let k := j + w1
    match cs.get? k with
    | some c =>
      if c == '•' || c == '-' || c == '*' then
        let w2 := ((cs.drop (k + 1)).takeWhile isJsWS).length
        if w2 = 0 then none else some ((j - i) + w1 + 1 + w2)
      else none
    | none => none

/-- Global non-overlapping scan for the bullet regex, advancing past each
match (fuel-indexed; consumed length is always positive). -/
def bulletScanAux : ℕ → List Char → ℕ → ℕ
  | 0, _, _ => 0
  | fuel + 1, cs, i =>
    if i ≥ cs.length + 1 then 0
    else
      match bulletMatchLen cs i with
      | some n => 1 + bulletScanAux fuel cs (i + max n 1)
      | none => bulletScanAux fuel cs (i + 1)

/-- `countMatches(text, /(^|\n)\s*(•|\-|\*)\s+/g)`. -/
def bulletCount (cs : List Char) : ℕ :=
  bulletScanAux (cs.length + 2) cs 0

/-- Digit test for the regex class `\d`. -/
def isDigitChar (c : Char) : Bool := c.isDigit

/-- `countMatches(text, /\b\d+(%|k|m|\+)?\b/g)`: each match is a maximal
digit run preceded by a word boundary; after the greedy `\d+`, the optional
suffix and the trailing `\b` succeed exactly when the next character is
missing or non-word, or is `k`/`m` followed by a missing or non-word
character (`%` and `+` are themselves non-word, so they only extend the
match, never enable or disable it).  Counting run starts counts the
non-overlapping matches. -/
def numbersCount (cs : List Char) : ℕ :=
  (List.range cs.length).countP fun i =>
    (match cs.get? i with | some c => isDigitChar c | none => false) &&
    boundaryBefore cs i &&
    (let e := i + ((cs.drop i).takeWhile isDigitChar).length
     match cs.get? e with
     | none => true
     | some c =>
       if !isWordChar c then true
       else if c == 'k' || c == 'm' then !isWordAt cs (e + 1)
       else false)

/-- Character class `[\w.+-]` of the e-mail regex's local part. -/
def isEmailLocalChar (c : Char) : Bool :=
  isWordChar c || c == '.' || c == '+' || c == '-'

/-- Character class `[\w.-]` of the e-mail regex's domain tail. -/
def isEmailTailChar (c : Char) : Bool :=
  isWordChar c || c == '.' || c == '-'

/-- `/[\w.+-]+@\w+\.[\w.-]+/i.test(text)`: some `'@'` preceded by at least one
local-part character, followed by at least one word character, a dot, and at
least one tail character. -/
def hasEmail (cs : List Char) : Bool :=
  (List.range cs.length).any fun i =>
    cs.get? i == some '@' && decide (1 ≤ i) &&
    (match cs.get? (i - 1) with | some c => isEmailLocalChar c | none => false) &&
    ((List.range (cs.length + 1)).any fun j =>
      decide (i + 2 ≤ j) && cs.get? j == some '.' &&
      ((cs.drop (i + 1)).take (j - i - 1)).all isWordChar &&
      (match cs.get? (j + 1) with | some c => isEmailTailChar c | none => false))

/-- Character class `[\d\s\-()]` of the phone regex. -/
def isPhoneClassChar (c : Char) : Bool :=
  isDigitChar c || isJsWS c || c == '-' || c == '(' || c == ')'

/-- `/\b(\+?\d[\d\s\-()]{7,})\b/.test(text)`: a digit at `p` entered either
directly over a word boundary, or via a `'+'` that itself sits on a word
boundary (so the `'+'` needs a word character before it); then at least 7
characters of the phone class and a word boundary after the match. -/
def hasPhone (cs : List Char) : Bool :=
  (List.range cs.length).any fun p =>
    (match cs.get? p with | some c => isDigitChar c | none => false) &&
    ((decide (p = 0) || !isWordAt cs (p - 1)) ||
     (decide (2 ≤ p) && cs.get? (p - 1) == some '+' && isWordAt cs (p - 2))) &&
    ((List.range (cs.length + 1)).any fun k =>
      decide (7 ≤ k) &&
      (let run := (cs.drop (p + 1)).take k
       decide (run.length = k) && run.all isPhoneClassChar &&
       (isWordAt cs (p + k) != isWordAt cs (p + k + 1))))

/-- `/(linkedin\.com|github\.com|portfolio|https?:\/\/)/i.test(text)` over the
lowered text. -/
def hasLink (lowerText : String) : Bool :=
  containsSub lowerText "linkedin.com" || containsSub lowerText "github.com" ||
  containsSub lowerText "portfolio" || containsSub lowerText "http://" ||
  containsSub lowerText "https://"

/-! ## `services/atsScorer.js`: `scoreResume` -/

/-- `confidences[s] || 0`. -/
def lookupQ : List (String × ℚ) → String → ℚ
  | [], _ => 0
  | p :: rest, s => if p.1 == s then p.2 else lookupQ rest s

/-- Block 1: section coverage, `sectionPoints` (5 per present section,
capped at 35). -/
def sectionPointsOf (lower : List Char) : ℕ :=
  let raw := 5 * (SECTION_REGEX.countP fun p => altTest p.2 lower)
  if raw > 35 then 35 else raw

/-- The per-section presence flags (`sectionPresence`), in source order. -/
def sectionPresence (lower : List Char) : List (String × Bool) :=
  SECTION_REGEX.map fun p => (p.1, altTest p.2 lower)

/-- `avgConfidence`: mean of `confidences[s] || 0` over the analysis skills,
0 when there are none. -/
def avgConfidenceOf (a : Analysis) : ℚ :=
  if a.skills.length = 0 then 0
  else (a.skills.foldl (fun acc s => acc + lookupQ a.confidence_scores s) 0) / a.skills.length

/-- Block 2: keyword relevancy, `keywordPoints` (skills count up to 18,
scaled average confidence up to 6, category diversity up to 6; capped at 30). -/
def keywordPointsOf (a : Analysis) : ℤ :=
  let raw := min (a.skills.length : ℤ) 18 +
    min (jsRound (avgConfidenceOf a / 1 * 6)) 6 +
    min (a.categories.length : ℤ) 6
  if raw > 30 then 30 else raw

/-- `lines`: `text.split(/\r?\n/).filter(Boolean)`. -/
def linesOf (t : String) : List String :=
  (splitRN t).filter (fun l => l ≠ "")

/-- `avgLineLen`: rounded mean line length, 0 when there are no lines. -/
def avgLineLenOf (lines : List String) : ℕ :=
  if lines.length = 0 then 0
  else jsRoundDiv (lines.foldl (fun acc l => acc + l.length) 0) lines.length

/-- Block 3: formatting & readability, `formattingPoints` (bullets up to 8,
6 or 3 for average line length, 6 or 2 for long lines; capped at 20).
`Math.round(lines.length * 0.05)` is embedded as the exact rational rounding
`jsRoundDiv lines.length 20`. -/
def formattingPointsOf (cs : List Char) (lines : List String) : ℕ :=
  let bullets := bulletCount cs
  let longLines := (lines.filter fun l => l.length > 140).length
  let avgLineLen := avgLineLenOf lines
  let p1 := if bullets ≥ 8 then 8 else max 0 bullets
  let p2 := p1 + (if avgLineLen > 50 ∧ avgLineLen < 120 then 6 else 3)
  let p3 := p2 + (if longLines ≤ max 3 (jsRoundDiv lines.length 20) then 6 else 2)
  if p3 > 20 then 20 else p3

/-- `actionVerbCount`: total whole-word hits of the action verbs in the
lowered text. -/
def actionVerbCountOf (lower : List Char) : ℕ :=
  ACTION_VERBS.foldl (fun acc v => acc + wordCount lower v.data) 0

/-- Block 4: impact & action verbs, `impactPoints` (thresholds 10/6/3/1). -/
def impactPointsOf (lower : List Char) : ℕ :=
  let n := actionVerbCountOf lower
  if n ≥ 10 then 10
  else if n ≥ 6 then 8
  else if n ≥ 3 then 6
  else if n ≥ 1 then 4
  else 0

/-- Block 5: quantification, `quantPoints = Math.min(5, Math.round(numbers / 4))`. -/
def quantPointsOf (cs : List Char) : ℕ :=
  min 5 (jsRoundDiv (numbersCount cs) 4)

/-- Block 6: contact completeness, `contactPoints` (+2 email, +2 phone, +1 link). -/
def contactPointsOf (cs lower : List Char) : ℕ :=
  (if hasEmail cs then 2 else 0) + (if hasPhone cs then 2 else 0) +
    (if hasLink (String.mk lower) then 1 else 0)

/-- The suggestions list of `scoreResume`, before `slice(0, 6)`. -/
def suggestionsOf (t : String) (a : Analysis) : List String :=
  let cs := t.data
  let lower := (jsToLower t).data
  let lines := linesOf t
  ((sectionPresence lower).filterMap fun p =>
    if p.2 then none
    else some ("Add a clear '" ++ p.1 ++ "' section with a concise heading."))
  ++ (if a.skills.length < 10 then
        ["Include more role-relevant keywords in the Skills section."] else [])
  ++ (if avgLineLenOf lines ≥ 120 then
        ["Break long paragraphs into concise bullet points."] else [])
  ++ (if bulletCount cs < 8 then
        ["Use more bullet points to highlight achievements."] else [])
  ++ (if actionVerbCountOf lower < 5 then
        ["Start bullets with strong action verbs (e.g., Led, Built, Optimized)."] else [])
  ++ (if numbersCount cs < 5 then
        ["Quantify impact with numbers (%, $, time saved, scale)."] else [])
  ++ (if !hasEmail cs || !hasPhone cs then
        ["Ensure email and phone number are present and easy to find."] else [])

/-- The degenerate return of `scoreResume` for a missing or non-string
`resumeText`. -/
def degenerateATS : ATSResult :=
  { score := 0, breakdown := none, meta := none,
    suggestions := ["Resume text missing or invalid."], version := "1.0" }

/-- The main scoring path of `scoreResume` for a non-empty string input. -/
def scoreResumeText (t : String) (a : Analysis) : ATSResult :=
  let cs := t.data
  let lower := (jsToLower t).data
  let lines := linesOf t
  let sectionPoints := sectionPointsOf lower
  let keywordPoints := keywordPointsOf a
  let formattingPoints := formattingPointsOf cs lines
  let impactPoints := impactPointsOf lower
  let quantPoints := quantPointsOf cs
  let contactPoints := contactPointsOf cs lower
  let total : ℤ := sectionPoints + keywordPoints + formattingPoints +
    impactPoints + quantPoints + contactPoints
  { score := max 0 (min 100 total),
    breakdown := some
      { sections := sectionPoints, keywords := keywordPoints,
        formatting := formattingPoints, impact := impactPoints,
        quantification := quantPoints, contact := contactPoints },
    meta := some
      { skillsCount := a.skills.length,
        categories := a.categories.map (·.1),
        avgConfidence := avgConfidenceOf a },
    suggestions := (suggestionsOf t a).take 6,
    version := "1.0" }

/-- `scoreResume(resumeText, analysis)`.  `resumeText : Option String` models
the JS value: `none` is an absent or non-string argument; the guard
`!resumeText || typeof resumeText !== 'string'` also catches the empty string,
which is falsy. -/
def scoreResume (resumeText : Option String) (a : Analysis) : ATSResult :=
  match resumeText with
  | none => degenerateATS
  | some t => if t = "" then degenerateATS else scoreResumeText t a

/-! ## `services/atsScorer.js`: `generateResumeSummary`, `summarizeImprovements` -/

/-- The assembled summary of `generateResumeSummary` before truncation. -/
def assembleSummary (a : Analysis) (ats : ATSResult) : String :=
  let skills := a.skills
  let topSkills := skills.take 6
  let categories := a.categories.map (·.1)
  let catSnippet := String.intercalate ", " (categories.take 3)
  let impactHint :=
    match ats.breakdown with
    | some b => if b.impact ≥ 6 then "proven impact" else "impact"
    | none => "impact"
  let parts : List String :=
    (if topSkills.length ≠ 0 then
      ["Hands-on with " ++ String.intercalate ", " (topSkills.take 3) ++
        (if topSkills.length > 3 then ", and " ++ (topSkills.drop 3).headI else "")]
     else []) ++
    (if catSnippet ≠ "" then ["spanning " ++ catSnippet] else [])
  let line1 :=
    if parts.length ≠ 0 then String.intercalate " " parts ++ "."
    else "Results-driven professional with a strong technical foundation."
  let line2 := "Focus on delivering " ++ impactHint ++
    " through clean execution, measurable results, and continuous improvement."
  let line3 :=
    if topSkills.length > 0 then
      "Seeking roles where " ++ topSkills.headI ++
        " and adjacent skills create outsized value."
    else ""
  String.intercalate " " (([line1, line2, line3].filter (fun l => l ≠ "")))

/-- `generateResumeSummary(analysis, ats)`: the assembled text, truncated to
its first 317 characters plus `"..."` when longer than 320 characters. -/
def generateResumeSummary (a : Analysis) (ats : ATSResult) : String :=
  let summary := assembleSummary a ats
  if summary.length > 320 then jsSlice summary 317 ++ "..." else summary

/-- `summarizeImprovements(ats)`. -/
def summarizeImprovements (ats : ATSResult) : String :=
  let top := ats.suggestions.take 3
  if top.length = 0 then
    "Resume is in good shape. Consider minor refinements for clarity and impact."
  else String.intercalate " • " top

/-! ## Bounds on the six sub-scores -/

/-- The AnalysisResult contract: every carried confidence lies in `[0, 1]`. -/
def confInRange (a : Analysis) : Prop :=
  ∀ p ∈ a.confidence_scores, 0 ≤ p.2 ∧ p.2 ≤ 1

theorem lookupQ_nonneg (l : List (String × ℚ)) (h : ∀ p ∈ l, 0 ≤ p.2) (s : String) :
    0 ≤ lookupQ l s := by
  induction l with
  | nil => simp [lookupQ]
  | cons p rest ih =>
    by_cases hp : p.1 == s
    · simpa [lookupQ, hp] using h p (by simp)
    · simpa [lookupQ, hp] using ih fun q hq => h q (by simp [hq])

theorem foldl_lookupQ_nonneg (skills : List String) (l : List (String × ℚ))
    (h : ∀ p ∈ l, 0 ≤ p.2) (acc : ℚ) (hacc : 0 ≤ acc) :
    0 ≤ skills.foldl (fun acc s => acc + lookupQ l s) acc := by
  induction skills generalizing acc with
  | nil => simpa using hacc
  | cons s rest ih =>
    exact ih _ (add_nonneg hacc (lookupQ_nonneg l h s))

theorem avgConfidenceOf_nonneg (a : Analysis) (h : confInRange a) :
    0 ≤ avgConfidenceOf a := by
  unfold avgConfidenceOf
  by_cases hl : a.skills.length = 0
  · simp [hl]
  · have hs : 0 ≤ a.skills.foldl (fun acc s => acc + lookupQ a.confidence_scores s) 0 :=
      foldl_lookupQ_nonneg _ _ (fun p hp => (h p hp).1) 0 le_rfl
    have hn : (0 : ℚ) ≤ (a.skills.length : ℚ) := by positivity
    simp only [hl, if_false]
    exact div_nonneg hs hn

theorem sectionPointsOf_bounds (lower : List Char) :
    sectionPointsOf lower ≤ 35 := by
  simp only [sectionPointsOf]
  split <;> omega

theorem jsRound_nonneg (q : ℚ) (h : 0 ≤ q) : 0 ≤ jsRound q := by
  unfold jsRound
  exact Int.le_floor.mpr (by push_cast; linarith)

theorem keywordPointsOf_nonneg (a : Analysis) (h : confInRange a) :
    0 ≤ keywordPointsOf a := by
  have havg := avgConfidenceOf_nonneg a h
  simp only [keywordPointsOf]
  split
  · norm_num
  · refine add_nonneg (add_nonneg ?_ ?_) ?_
    · exact le_min (by positivity) (by norm_num)
    · exact le_min (jsRound_nonneg _ (by positivity)) (by norm_num)
    · exact le_min (by positivity) (by norm_num)

theorem keywordPointsOf_le (a : Analysis) : keywordPointsOf a ≤ 30 := by
  simp only [keywordPointsOf]
  split
  · norm_num
  · exact le_of_not_lt (by assumption)

theorem formatting_core (x y z : ℕ) (hy : y = 6 ∨ y = 3) (hz : z = 6 ∨ z = 2) :
    5 ≤ (if x + y + z > 20 then 20 else x + y + z) ∧
      (if x + y + z > 20 then 20 else x + y + z) ≤ 20 := by
  rcases hy with hy | hy <;> rcases hz with hz | hz <;> subst hy <;> subst hz <;>
    constructor <;> split <;> omega

theorem formattingPointsOf_bounds (cs : List Char) (lines : List String) :
    5 ≤ formattingPointsOf cs lines ∧ formattingPointsOf cs lines ≤ 20 := by
  simp only [formattingPointsOf]
  refine formatting_core _ _ _ ?_ ?_
  · split
    · left; rfl
    · right; rfl
  · split
    · left; rfl
    · right; rfl

theorem impactPointsOf_le (lower : List Char) : impactPointsOf lower ≤ 10 := by
  simp only [impactPointsOf]
  repeat' split
  all_goals omega

theorem quantPointsOf_le (cs : List Char) : quantPointsOf cs ≤ 5 :=
  Nat.min_le_left 5 _

theorem contactPointsOf_le (cs lower : List Char) : contactPointsOf cs lower ≤ 5 := by
  simp only [contactPointsOf]
  repeat' split
  all_goals omega

theorem data_append (s t : String) : (s ++ t).data = s.data ++ t.data := by
  cases s; cases t; rfl

theorem length_append' (s t : String) : (s ++ t).length = s.length + t.length := by
  show (s ++ t).data.length = s.data.length + t.data.length
  rw [data_append]
  exact List.length_append _ _

/-- C3: for every input, each of `scoreResume`'s six breakdown sub-scores is
non-negative and respects its cap (35/30/20/10/5/5), the returned `score` is
the sum of the six sub-scores clamped to `[0, 100]`, and an absent or
non-string `resumeText` yields exactly the degenerate result
`{score: 0, breakdown: {}, suggestions: ["Resume text missing or invalid."],
version: "1.0"}`.  Confidence values are assumed to be in `[0, 1]`, as the
AnalysisResult contract states. -/
theorem scoreResume_breakdown_caps (t : String) (a : Analysis)
    (hconf : confInRange a) (ht : t ≠ "") :
    (∃ b : Breakdown, (scoreResume (some t) a).breakdown = some b ∧
      (0 ≤ b.sections ∧ b.sections ≤ 35) ∧
      (0 ≤ b.keywords ∧ b.keywords ≤ 30) ∧
      (0 ≤ b.formatting ∧ b.formatting ≤ 20) ∧
      (0 ≤ b.impact ∧ b.impact ≤ 10) ∧
      (0 ≤ b.quantification ∧ b.quantification ≤ 5) ∧
      (0 ≤ b.contact ∧ b.contact ≤ 5) ∧
      (scoreResume (some t) a).score =
        max 0 (min 100 (b.sections + b.keywords + b.formatting +
          b.impact + b.quantification + b.contact))) ∧
    ∀ a' : Analysis, scoreResume none a' = degenerateATS := by
  have hsr : scoreResume (some t) a = scoreResumeText t a := by
    show (if t = "" then degenerateATS else scoreResumeText t a) = scoreResumeText t a
    rw [if_neg ht]
  constructor
  · refine ⟨⟨(sectionPointsOf (jsToLower t).data : ℤ), keywordPointsOf a,
      (formattingPointsOf t.data (linesOf t) : ℤ),
      (impactPointsOf (jsToLower t).data : ℤ),
      (quantPointsOf t.data : ℤ),
      (contactPointsOf t.data (jsToLower t).data : ℤ)⟩,
      ?_, ⟨?_, ?_⟩, ⟨?_, ?_⟩, ⟨?_, ?_⟩, ⟨?_, ?_⟩, ⟨?_, ?_⟩, ⟨?_, ?_⟩, ?_⟩
    · rw [hsr]; rfl
    · exact Int.ofNat_nonneg _
    · show (sectionPointsOf (jsToLower t).data : ℤ) ≤ 35
      exact_mod_cast sectionPointsOf_bounds (jsToLower t).data
    · exact keywordPointsOf_nonneg a hconf
    · exact keywordPointsOf_le a
    · exact Int.ofNat_nonneg _
    · show (formattingPointsOf t.data (linesOf t) : ℤ) ≤ 20
      exact_mod_cast (formattingPointsOf_bounds t.data (linesOf t)).2
    · exact Int.ofNat_nonneg _
    · show (impactPointsOf (jsToLower t).data : ℤ) ≤ 10
      exact_mod_cast impactPointsOf_le (jsToLower t).data
    · exact Int.ofNat_nonneg _
    · show (quantPointsOf t.data : ℤ) ≤ 5
      exact_mod_cast quantPointsOf_le t.data
    · exact Int.ofNat_nonneg _
    · show (contactPointsOf t.data (jsToLower t).data : ℤ) ≤ 5
      exact_mod_cast contactPointsOf_le t.data (jsToLower t).data
    · rw [hsr]; rfl
  · intro a'; rfl

/-- Witness for C3 at the concrete input `t = "a"`, `analysis` with no skills,
categories or confidences. -/
theorem scoreResume_breakdown_caps_witness :
    (∃ b : Breakdown,
      (scoreResume (some "a") ⟨[], [], []⟩).breakdown = some b ∧
      (0 ≤ b.sections ∧ b.sections ≤ 35) ∧
      (0 ≤ b.keywords ∧ b.keywords ≤ 30) ∧
      (0 ≤ b.formatting ∧ b.formatting ≤ 20) ∧
      (0 ≤ b.impact ∧ b.impact ≤ 10) ∧
      (0 ≤ b.quantification ∧ b.quantification ≤ 5) ∧
      (0 ≤ b.contact ∧ b.contact ≤ 5) ∧
      (scoreResume (some "a") ⟨[], [], []⟩).score =
        max 0 (min 100 (b.sections + b.keywords + b.formatting +
          b.impact + b.quantification + b.contact))) ∧
    ∀ a' : Analysis, scoreResume none a' = degenerateATS :=
  scoreResume_breakdown_caps "a" ⟨[], [], []⟩ (fun p hp => by simp at hp) (by decide)

/-- C8: for every non-empty string `resumeText` (and analysis from the
AnalysisResult contract) the `formatting` sub-score is at least 5 — the
average-line-length term contributes at least 3 and the long-lines term at
least 2 — so the total score is at least 5; a score of 0 therefore only
arises on the degenerate missing/non-string path. -/
theorem scoreResume_formatting_floor (t : String) (a : Analysis)
    (hconf : confInRange a) (ht : t ≠ "") :
    ∃ b : Breakdown, (scoreResume (some t) a).breakdown = some b ∧
      5 ≤ b.formatting ∧ 5 ≤ (scoreResume (some t) a).score := by
  have hsr : scoreResume (some t) a = scoreResumeText t a := by
    show (if t = "" then degenerateATS else scoreResumeText t a) = scoreResumeText t a
    rw [if_neg ht]
  refine ⟨⟨(sectionPointsOf (jsToLower t).data : ℤ), keywordPointsOf a,
    (formattingPointsOf t.data (linesOf t) : ℤ),
    (impactPointsOf (jsToLower t).data : ℤ),
    (quantPointsOf t.data : ℤ),
    (contactPointsOf t.data (jsToLower t).data : ℤ)⟩, ?_, ?_, ?_⟩
  · rw [hsr]; rfl
  · show (5 : ℤ) ≤ (formattingPointsOf t.data (linesOf t) : ℤ)
    exact_mod_cast (formattingPointsOf_bounds t.data (linesOf t)).1
  · have hscore : (scoreResume (some t) a).score =
        max 0 (min 100 ((sectionPointsOf (jsToLower t).data : ℤ) + keywordPointsOf a +
          (formattingPointsOf t.data (linesOf t) : ℤ) +
          (impactPointsOf (jsToLower t).data : ℤ) +
          (quantPointsOf t.data : ℤ) +
          (contactPointsOf t.data (jsToLower t).data : ℤ))) := by
      rw [hsr]; rfl
    rw [hscore]
    have h1 : (0 : ℤ) ≤ sectionPointsOf (jsToLower t).data := Int.ofNat_nonneg _
    have h2 : (0 : ℤ) ≤ keywordPointsOf a := keywordPointsOf_nonneg a hconf
    have h3 : (5 : ℤ) ≤ formattingPointsOf t.data (linesOf t) := by
      exact_mod_cast (formattingPointsOf_bounds t.data (linesOf t)).1
    have h4 : (0 : ℤ) ≤ impactPointsOf (jsToLower t).data := Int.ofNat_nonneg _
    have h5 : (0 : ℤ) ≤ quantPointsOf t.data := Int.ofNat_nonneg _
    have h6 : (0 : ℤ) ≤ contactPointsOf t.data (jsToLower t).data := Int.ofNat_nonneg _
    have hmin : (5 : ℤ) ≤ min 100 ((sectionPointsOf (jsToLower t).data : ℤ) +
        keywordPointsOf a + (formattingPointsOf t.data (linesOf t) : ℤ) +
        (impactPointsOf (jsToLower t).data : ℤ) + (quantPointsOf t.data : ℤ) +
        (contactPointsOf t.data (jsToLower t).data : ℤ)) :=
      le_min (by norm_num) (by linarith)
    exact le_trans hmin (le_max_right 0 _)

/-- Witness for C8 at the concrete input `t = "b"`, empty analysis. -/
theorem scoreResume_formatting_floor_witness :
    ∃ b : Breakdown,
      (scoreResume (some "b") ⟨[], [], []⟩).breakdown = some b ∧
      5 ≤ b.formatting ∧ 5 ≤ (scoreResume (some "b") ⟨[], [], []⟩).score :=
  scoreResume_formatting_floor "b" ⟨[], [], []⟩ (fun p hp => by simp at hp) (by decide)

/-- C9: the empty string is falsy in JS, so `scoreResume("")` takes the same
degenerate path as an absent or non-string input and returns exactly
`{score: 0, breakdown: {}, suggestions: ["Resume text missing or invalid."],
version: "1.0"}`. -/
theorem scoreResume_empty_string (a : Analysis) :
    scoreResume (some "") a =
      { score := 0, breakdown := none, meta := none,
        suggestions := ["Resume text missing or invalid."], version := "1.0" } := by
  rfl

/-- C4: `generateResumeSummary` never returns more than 320 characters, and
whenever the assembled summary exceeds 320 characters the result is exactly
its first 317 characters followed by the three-dot ellipsis marker (hence
every truncated output ends in `"..."`). -/
theorem generateResumeSummary_length (a : Analysis) (ats : ATSResult) :
    (generateResumeSummary a ats).length ≤ 320 ∧
    ((assembleSummary a ats).length > 320 →
      generateResumeSummary a ats = jsSlice (assembleSummary a ats) 317 ++ "..." ∧
      "...".data <:+ (generateResumeSummary a ats).data) := by
  by_cases h : (assembleSummary a ats).length > 320
  · have heq : generateResumeSummary a ats =
        jsSlice (assembleSummary a ats) 317 ++ "..." := by
      show (if (assembleSummary a ats).length > 320 then
        jsSlice (assembleSummary a ats) 317 ++ "..." else assembleSummary a ats) =
        jsSlice (assembleSummary a ats) 317 ++ "..."
      rw [if_pos h]
    constructor
    · rw [heq, length_append']
      have hsl : (jsSlice (assembleSummary a ats) 317).length =
          min 317 (assembleSummary a ats).data.length := by
        show ((assembleSummary a ats).data.take 317).length =
          min 317 (assembleSummary a ats).data.length
        exact List.length_take _ _
      have h3 : ("..." : String).length = 3 := rfl
      rw [hsl, h3]
      omega
    · intro _
      refine ⟨heq, ?_⟩
      rw [heq, data_append]
      exact List.suffix_append _ _
  · have heq : generateResumeSummary a ats = assembleSummary a ats := by
      show (if (assembleSummary a ats).length > 320 then
        jsSlice (assembleSummary a ats) 317 ++ "..." else assembleSummary a ats) =
        assembleSummary a ats
      rw [if_neg h]
    exact ⟨heq ▸ le_of_not_lt h, fun hc => absurd hc h⟩

/-- A 400-character skill name, to drive the summary over 320 characters. -/
def bigSkill : String := String.mk (List.replicate 400 'a')

set_option maxRecDepth 40000 in
/-- Witness for C4: a concrete analysis whose assembled summary exceeds 320
characters, so the truncating branch is exercised. -/
theorem generateResumeSummary_length_witness :
    (assembleSummary ⟨[bigSkill], [], []⟩ degenerateATS).length > 320 ∧
    generateResumeSummary ⟨[bigSkill], [], []⟩ degenerateATS =
      jsSlice (assembleSummary ⟨[bigSkill], [], []⟩ degenerateATS) 317 ++ "..." :=
  ⟨by decide, ((generateResumeSummary_length ⟨[bigSkill], [], []⟩ degenerateATS).2
    (by decide)).1⟩

/-! ## Sessions: `services/sessionStore.js` and the module-local map of
`routes/chat.js`

`routes/chat.js` holds its own `const chatSessions = new Map()`; the separate
module `services/sessionStore.js` (used by the resume upload route) holds its
own `const chatSessions = new Map()` as well.  Both maps are embedded as
values of type `SessionMap` and threaded explicitly; they are distinct
states. -/

/-- `resume` record written into a session profile by the upload route. -/
structure ResumeRecord where
  uploadedAt : String
  fileName : String
  textPreview : String
  categories : List (String × List String)
  confidence : List (String × ℚ)
deriving DecidableEq

/-- A session's `userProfile`: a free-form object; the embedding carries the
fields the routes actually read or write (`skills`, `resume`, `targetRole`,
`createdAt`); an absent key is `none` (for `skills`, the routes guard with
`Array.isArray`, so the empty list models an absent key faithfully). -/
structure UserProfile where
  skills : List String
  resume : Option ResumeRecord
  targetRole : Option String
  createdAt : Option String
deriving DecidableEq

/-- The JS `{}` profile. -/
def emptyProfile : UserProfile :=
  { skills := [], resume := none, targetRole := none, createdAt := none }

/-- A chat history entry; only assistant messages carry a `data` payload
(embedded as an opaque string). -/
structure ChatMsg where
  role : String
  content : String
  data : Option String
  timestamp : String
deriving DecidableEq

/-- A `ChatSession` as stored in either map. -/
structure ChatSession where
  id : String
  history : List ChatMsg
  userProfile : UserProfile
  createdAt : String
deriving DecidableEq

/-- Either session map. -/
def SessionMap : Type := List (String × ChatSession)

instance : DecidableEq SessionMap := by
  unfold SessionMap
  exact inferInstance

/-- `sessionStore.getSession`. -/
def getSession (store : SessionMap) (sessionId : String) : Option ChatSession :=
  mapGet store sessionId

/-- `sessionStore.createSession(initial)`: uses `initial.id || <generated>`
(the generated timestamp-plus-random identifier is passed in as `genId`),
an empty history, a copy of `initial.userProfile || {}`, and the current
time `now`. -/
def createSession (store : SessionMap) (initialId : Option String)
    (initialProfile : UserProfile) (genId now : String) : SessionMap × ChatSession :=
  let id := match initialId with
    | some i => if i = "" then genId else i
    | none => genId
  let session : ChatSession :=
    { id := id, history := [], userProfile := initialProfile, createdAt := now }
  (mapSet store id session, session)

/-- `sessionStore.ensureSession(sessionId, fallbackProfile)`:
`sessionId ? getSession(sessionId) : null`, creating a session keyed by
`sessionId` when the lookup misses. -/
def ensureSession (store : SessionMap) (sessionId : Option String)
    (fallbackProfile : UserProfile) (genId now : String) : SessionMap × ChatSession :=
  let existing := match sessionId with
    | some sid => if sid = "" then none else getSession store sid
    | none => none
  match existing with
  | some s => (store, s)
  | none => createSession store sessionId fallbackProfile genId now

/-- A shallow-merge update object for `updateUserProfile`; `some` marks a key
present in `updates`. -/
structure ProfileUpdates where
  skills : Option (List String)
  resume : Option ResumeRecord
  targetRole : Option String
  createdAt : Option String
deriving DecidableEq

/-- `{ ...session.userProfile, ...updates }`. -/
def shallowMerge (p : UserProfile) (u : ProfileUpdates) : UserProfile :=
  { skills := u.skills.getD p.skills,
    resume := match u.resume with | some r => some r | none => p.resume,
    targetRole := match u.targetRole with | some r => some r | none => p.targetRole,
    createdAt := match u.createdAt with | some c => some c | none => p.createdAt }

/-- `sessionStore.updateUserProfile(sessionId, updates)`. -/
def updateUserProfile (store : SessionMap) (sessionId : String)
    (updates : ProfileUpdates) (genId now : String) : SessionMap × ChatSession :=
  let (store1, session) := ensureSession store (some sessionId) emptyProfile genId now
  let session' := { session with userProfile := shallowMerge session.userProfile updates }
  (mapSet store1 session'.id session', session')

/-- `sessionStore.deleteSession`. -/
def deleteSession (store : SessionMap) (sessionId : String) : SessionMap × Bool :=
  (mapDelete store sessionId, mapHas store sessionId)

/-! ## The skill merge of `routes/resume.js` (upload route, `sessionId` given) -/

/-- `Array.from(new Map([...currentSkills, ...extractedSkills]
.map(s => [s.toLowerCase(), s])).values())`: keys are lowercased names; a JS
`Map` keeps the first insertion position of a key but the last written value,
so the merge is case-insensitively de-duplicating with last-seen casing
winning at the first occurrence's position. -/
def mergeSkills (currentSkills extractedSkills : List String) : List String :=
  (((currentSkills ++ extractedSkills).map fun s => (jsToLower s, s)).foldl
    (fun m p => mapSet m p.1 p.2) ([] : List (String × String))).map (·.2)

/-- The `if (sessionId)` block of the upload route: ensure the session,
merge skills, and update the profile with the merged list and the `resume`
record (`textPreview` is the first 500 characters of the resume text). -/
def uploadSessionMerge (store : SessionMap) (sessionId : String)
    (extractedSkills : List String) (categories : List (String × List String))
    (confidences : List (String × ℚ)) (fileName resumeText genId now : String) :
    SessionMap × ChatSession :=
  let (store1, currentSession) := ensureSession store (some sessionId) emptyProfile genId now
  let currentSkills := currentSession.userProfile.skills
  let merged := mergeSkills currentSkills extractedSkills
  updateUserProfile store1 currentSession.id
    { skills := some merged,
      resume := some
        { uploadedAt := now, fileName := fileName,
          textPreview := jsSlice resumeText 500,
          categories := categories, confidence := confidences },
      targetRole := none, createdAt := none } genId now

/-! ## `routes/chat.js` handlers (operating on the module-local map) -/

/-- Response of `GET /api/v1/chat/history/:sessionId`. -/
inductive HistoryResult
  | notFound (status : ℕ) (message : String)
  | ok (status : ℕ) (sessionId : String) (history : List ChatMsg)
      (userProfile : UserProfile) (createdAt : String)
deriving DecidableEq

/-- The history route handler. -/
def chatHistoryHandler (chatStore : SessionMap) (sessionId : String) : HistoryResult :=
  match mapGet chatStore sessionId with
  | none => .notFound 404 "Session not found"
  | some s => .ok 200 s.id s.history s.userProfile s.createdAt

/-- `POST /api/v1/chat/session`: stores a session under a generated
identifier whose profile is the supplied profile with `skills` (or `[]`)
and a `createdAt` stamp spread in; responds 201. -/
def chatSessionCreateHandler (chatStore : SessionMap) (userProfile : UserProfile)
    (skills : Option (List String)) (genId now : String) : SessionMap × ℕ × String :=
  let session : ChatSession :=
    { id := genId, history := [],
      userProfile := { userProfile with skills := skills.getD [], createdAt := some now },
      createdAt := now }
  (mapSet chatStore genId session, (201, genId))

/-- Outcome of `POST /api/v1/chat/message`: the updated module-local map, the
response status, and the request forwarded to `aiService.generateChatResponse`
(message, (role, content)-formatted history, and the profile used) — `none`
when the AI service was never called. -/
structure ChatMessageOutcome where
  store : SessionMap
  status : ℕ
  responseMessage : String
  aiRequest : Option (String × List (String × String) × UserProfile)
deriving DecidableEq

/-- The message route handler: rejects a blank message with 400; otherwise
looks the session up in the module-local map (creating one from the request's
`userProfile` when absent), appends the user message, calls the AI service
with the formatted history and the session's stored profile, appends the
assistant reply (`aiMessage`/`aiData` stand for the upstream response) and
re-stores the session under its own id. -/
def chatMessageHandler (chatStore : SessionMap) (sessionId : Option String)
    (message : String) (reqProfile : Option UserProfile)
    (aiMessage : String) (aiData : Option String) (now defaultId : String) :
    ChatMessageOutcome :=
  if message = "" ∨ jsTrim message = "" then
    { store := chatStore, status := 400,
      responseMessage := "Message cannot be empty", aiRequest := none }
  else
    let looked := match sessionId with
      | some sid => mapGet chatStore sid
      | none => none
    let session := looked.getD
      { id := match sessionId with
          | some sid => if sid = "" then defaultId else sid
          | none => defaultId,
        history := [], userProfile := reqProfile.getD emptyProfile, createdAt := now }
    let userMsg : ChatMsg := { role := "user", content := message, data := none, timestamp := now }
    let histAfterUser := session.history ++ [userMsg]
    let formatted := histAfterUser.map fun m => (m.role, m.content)
    let assistantMsg : ChatMsg :=
      { role := "assistant", content := aiMessage, data := aiData, timestamp := now }
    let session' := { session with history := histAfterUser ++ [assistantMsg] }
    { store := mapSet chatStore session'.id session',
      status := 200, responseMessage := aiMessage,
      aiRequest := some (message, formatted, session.userProfile) }

/-! ## The two disjoint session maps, as one server state

`routes/chat.js` imports only `express` and `aiService`; its five handlers
read and write the module-local `chatSessions` map declared in that file.
`routes/resume.js` imports `ensureSession`/`updateUserProfile`/`getSession`
from `services/sessionStore.js`, whose own `chatSessions` map is a different
object.  The server state is therefore a pair of independent maps. -/

structure ServerState where
  chatSessions : SessionMap
  sessionStore : SessionMap
deriving DecidableEq

/-- The session part of the upload route acting on the server state: it
only touches the `services/sessionStore.js` map. -/
def uploadWithSession (st : ServerState) (sessionId : String)
    (extractedSkills : List String) (categories : List (String × List String))
    (confidences : List (String × ℚ)) (fileName resumeText genId now : String) :
    ServerState × ChatSession :=
  let (store', sess) := uploadSessionMerge st.sessionStore sessionId extractedSkills
    categories confidences fileName resumeText genId now
  ({ st with sessionStore := store' }, sess)

/-- `GET /api/v1/chat/history/:sessionId` acting on the server state: it
only reads the module-local map of `routes/chat.js`. -/
def historyRoute (st : ServerState) (sessionId : String) : HistoryResult :=
  chatHistoryHandler st.chatSessions sessionId

/-- `POST /api/v1/chat/session` acting on the server state. -/
def sessionCreateRoute (st : ServerState) (userProfile : UserProfile)
    (skills : Option (List String)) (genId now : String) : ServerState × ℕ × String :=
  let (store', resp) := chatSessionCreateHandler st.chatSessions userProfile skills genId now
  ({ st with chatSessions := store' }, resp)

/-- The profile stored by `POST /api/v1/chat/session` for `skills = ["JS"]`
at time `"t0"`. -/
def profileJS : UserProfile :=
  { skills := ["JS"], resume := none, targetRole := none, createdAt := some "t0" }

/-- C1 (code bug evaluation): the chat routes do not operate against the
Session Store used by the resume upload route.  Concretely: starting from an
empty server, a resume upload with `sessionId = "s1"` ensures session `"s1"`
exists with the merged skills in `services/sessionStore.js`'s map, yet a
subsequent GET chat history for `"s1"` answers 404 `"Session not found"`
because `routes/chat.js` reads its own, still-empty map; and when the session
was first created through the chat session endpoint (id `"s2"`, skills
`["JS"]`), the upload cannot see that profile either — it merges into a fresh
Session Store entry (skills `["Python"]`, not `["JS", "Python"]`) while the
history route keeps answering with the untouched chat-side profile. -/
theorem chat_history_after_upload_divergence :
    (let st1 := (uploadWithSession ⟨[], []⟩ "s1" ["Python"] [] [] "resume.pdf"
        "resume text" "gen1" "t1").1
     (getSession st1.sessionStore "s1").map (fun s => s.userProfile.skills) =
        some ["Python"] ∧
     historyRoute st1 "s1" = .notFound 404 "Session not found") ∧
    (let st2 := (sessionCreateRoute ⟨[], []⟩ emptyProfile (some ["JS"]) "s2" "t0").1
     let st3 := (uploadWithSession st2 "s2" ["Python"] [] [] "resume.pdf"
        "resume text" "gen2" "t1").1
     (getSession st3.sessionStore "s2").map (fun s => s.userProfile.skills) =
        some ["Python"] ∧
     historyRoute st3 "s2" = .ok 200 "s2" [] profileJS "t0") := by
  decide

/-- A profile whose skills are `["Python"]`, and a session `"s1"` holding it. -/
def profilePython : UserProfile :=
  { skills := ["Python"], resume := none, targetRole := none, createdAt := none }

/-- A stored session with profile `profilePython`. -/
def sessPython : ChatSession :=
  { id := "s1", history := [], userProfile := profilePython, createdAt := "t0" }

/-- C2 counterexample: the upload-route skill merge does NOT keep the
first-seen casing.  For a session whose profile skills are `["Python"]` and
extracted skills `["python", "React"]`, the merged list contains no entry
`"Python"`: a JS `Map` keeps the last value written for a key, so the
lowercase `"python"` from the extracted list wins. -/
theorem uploadMerge_not_first_seen_casing :
    (let r := uploadSessionMerge [("s1", sessPython)] "s1" ["python", "React"] [] []
        "resume.pdf" "resume text" "gen" "t1"
     ¬ ("Python" ∈ r.2.userProfile.skills) ∧ r.2.userProfile.skills.length = 2) := by
  decide

/-- C2 (amended): the merge is case-insensitive and de-duplicating, keeping
the first occurrence's position but the last-seen casing: the session ends
with exactly the two entries `["python", "React"]` — one representing Python
(in the last-seen casing `"python"`) and one representing React — both in the
returned session and in the Session Store. -/
theorem uploadMerge_case_insensitive_dedup :
    (let r := uploadSessionMerge [("s1", sessPython)] "s1" ["python", "React"] [] []
        "resume.pdf" "resume text" "gen" "t1"
     r.2.userProfile.skills = ["python", "React"] ∧
     (mapGet r.1 "s1").map (fun s => s.userProfile.skills) =
        some ["python", "React"]) := by
  decide

/-- C10: a chat message posted to an existing session leaves the stored
`userProfile` untouched — the request's `userProfile` is only an initializer
for newly created sessions — forwards the stored (not the request's) profile
to the AI service, and mutates the session only by appending the user message
and the assistant reply to its history; every other key of the map is
unchanged. -/
theorem chatMessage_preserves_profile
    (chatStore : SessionMap) (S : String) (sess : ChatSession)
    (msg : String) (reqProfile : Option UserProfile) (aiMsg : String)
    (aiData : Option String) (now defaultId : String)
    (hS : mapGet chatStore S = some sess) (hid : sess.id = S)
    (hmsg : jsTrim msg ≠ "") :
    mapGet (chatMessageHandler chatStore (some S) msg reqProfile aiMsg aiData
        now defaultId).store S =
      some { sess with history := sess.history ++
        [⟨"user", msg, none, now⟩, ⟨"assistant", aiMsg, aiData, now⟩] } ∧
    (mapGet (chatMessageHandler chatStore (some S) msg reqProfile aiMsg aiData
        now defaultId).store S).map (fun s => s.userProfile) =
      some sess.userProfile ∧
    (chatMessageHandler chatStore (some S) msg reqProfile aiMsg aiData
        now defaultId).aiRequest =
      some (msg, (sess.history ++ ([⟨"user", msg, none, now⟩] : List ChatMsg)).map
        (fun m => (m.role, m.content)), sess.userProfile) ∧
    ∀ S', S' ≠ S → mapGet (chatMessageHandler chatStore (some S) msg reqProfile
        aiMsg aiData now defaultId).store S' = mapGet chatStore S' := by
  have hne : msg ≠ "" := by
    intro h
    apply hmsg
    rw [h]
    rfl
  have hguard : ¬ (msg = "" ∨ jsTrim msg = "") := by
    rintro (h | h)
    · exact hne h
    · exact hmsg h
  have hout : chatMessageHandler chatStore (some S) msg reqProfile aiMsg aiData
      now defaultId =
      { store := mapSet chatStore sess.id
          ({ sess with history := (sess.history ++
              [({ role := "user", content := msg, data := none,
                  timestamp := now } : ChatMsg)]) ++
              [({ role := "assistant", content := aiMsg, data := aiData,
                  timestamp := now } : ChatMsg)] } : ChatSession),
        status := 200, responseMessage := aiMsg,
        aiRequest := some (msg, (sess.history ++
          [({ role := "user", content := msg, data := none,
              timestamp := now } : ChatMsg)]).map
          (fun m => (m.role, m.content)), sess.userProfile) } := by
    unfold chatMessageHandler
    rw [if_neg hguard]
    simp [hS]
  refine ⟨?_, ?_, ?_, ?_⟩
  · rw [hout]
    dsimp only
    rw [hid, mapGet_mapSet_self]
    simp
  · rw [hout]
    dsimp only
    rw [hid, mapGet_mapSet_self]
    simp
  · rw [hout]
  · intro S' hS'
    rw [hout]
    dsimp only
    rw [hid]
    exact mapGet_mapSet_ne _ _ _ _ hS'

/-- The `userProfile` sent along with the witness request (ignored for an
existing session). -/
def profileX : UserProfile :=
  { skills := ["X"], resume := none, targetRole := none, createdAt := none }

/-- Witness for C10 at a concrete one-session store; the request carries a
different `userProfile` (skills `["X"]`) which is ignored, the frame is
checked at the absent key `"s2"`. -/
theorem chatMessage_preserves_profile_witness :
    mapGet (chatMessageHandler [("s1", sessPython)] (some "s1") "hi" (some profileX)
        "hello" none "t1" "d").store "s1" =
      some { sessPython with history := sessPython.history ++
        [⟨"user", "hi", none, "t1"⟩, ⟨"assistant", "hello", none, "t1"⟩] } ∧
    (chatMessageHandler [("s1", sessPython)] (some "s1") "hi" (some profileX)
        "hello" none "t1" "d").aiRequest =
      some ("hi", (sessPython.history ++ ([⟨"user", "hi", none, "t1"⟩] : List ChatMsg)).map
        (fun m => (m.role, m.content)), sessPython.userProfile) ∧
    mapGet (chatMessageHandler [("s1", sessPython)] (some "s1") "hi" (some profileX)
        "hello" none "t1" "d").store "s2" = mapGet [("s1", sessPython)] "s2" := by
  have h := chatMessage_preserves_profile [("s1", sessPython)] "s1" sessPython
    "hi" (some profileX) "hello" none "t1" "d" (by decide) (by decide) (by decide)
  exact ⟨h.1, h.2.2.1, h.2.2.2 "s2" (by decide)⟩

/-! ## `services/aiService.js`: `extractSkills` input validation and
`routes/resume.js`: `POST /analyze-text` -/

/-- `extractSkills(text)`: `text : Option String` models an absent or
non-string argument as `none`.  The guard
`!text || typeof text !== 'string' || text.trim().length < 10` throws the
invalid-input failure before any network activity; on the valid path the
`.ok` value is the trimmed text that is POSTed to the upstream `/extract`
endpoint (the performed network call). -/
def extractSkills (text : Option String) : Except String String :=
  match text with
  | none => .error "Invalid or insufficient text provided for skill extraction"
  | some t =>
    if t = "" ∨ (jsTrim t).length < 10 then
      .error "Invalid or insufficient text provided for skill extraction"
    else .ok (jsTrim t)

/-- The texts `extractSkills` sends upstream: one POST on the valid path,
none when the guard throws. -/
def extractSkillsCalls (text : Option String) : List String :=
  match extractSkills text with
  | .ok t => [t]
  | .error _ => []

/-- Outcome of the `POST /api/v1/resume/analyze-text` handler's validation:
either an immediate 400 response, or the handler proceeds into
`aiService.extractSkills(text)` with the raw request text. -/
inductive AnalyzeTextOutcome
  | badRequest (status : ℕ) (message : String)
  | proceed (text : String)
deriving DecidableEq

/-- The validation prefix of the analyze-text route:
`!text || typeof text !== 'string' || text.trim().length < 10` answers 400
before `extractSkills` is invoked. -/
def analyzeTextHandler (text : Option String) : AnalyzeTextOutcome :=
  match text with
  | none => .badRequest 400
      "Please provide valid text content for analysis (minimum 10 characters)."
  | some t =>
    if t = "" ∨ (jsTrim t).length < 10 then
      .badRequest 400
        "Please provide valid text content for analysis (minimum 10 characters)."
    else .proceed t

/-- C5: for every request text that is absent, not a string, or trims to
fewer than 10 characters, `extractSkills` raises the invalid-input failure
making no upstream call, and the analyze-text endpoint answers 400 with the
fixed message before ever invoking `extractSkills`. -/
theorem extractSkills_rejects_short_input (text : Option String)
    (h : text = none ∨ ∃ t, text = some t ∧ (jsTrim t).length < 10) :
    extractSkills text =
      .error "Invalid or insufficient text provided for skill extraction" ∧
    extractSkillsCalls text = [] ∧
    analyzeTextHandler text = .badRequest 400
      "Please provide valid text content for analysis (minimum 10 characters)." := by
  rcases h with h | ⟨t, rfl, ht⟩
  · subst h
    exact ⟨rfl, rfl, rfl⟩
  · have hguard : (t = "" ∨ (jsTrim t).length < 10) := Or.inr ht
    have he : extractSkills (some t) =
        .error "Invalid or insufficient text provided for skill extraction" := by
      show (if t = "" ∨ (jsTrim t).length < 10 then
          (.error "Invalid or insufficient text provided for skill extraction" :
            Except String String)
        else .ok (jsTrim t)) =
        .error "Invalid or insufficient text provided for skill extraction"
      rw [if_pos hguard]
    refine ⟨he, ?_, ?_⟩
    · unfold extractSkillsCalls
      rw [he]
    · show (if t = "" ∨ (jsTrim t).length < 10 then
          (.badRequest 400
            "Please provide valid text content for analysis (minimum 10 characters)." :
            AnalyzeTextOutcome)
        else .proceed t) =
        .badRequest 400
          "Please provide valid text content for analysis (minimum 10 characters)."
      rw [if_pos hguard]

/-- Witness for C5 at the concrete text `"  short  "` (trims to 5 < 10
characters) — both rejections fire and no upstream call is recorded. -/
theorem extractSkills_rejects_short_input_witness :
    extractSkills (some "  short  ") =
      .error "Invalid or insufficient text provided for skill extraction" ∧
    extractSkillsCalls (some "  short  ") = [] ∧
    analyzeTextHandler (some "  short  ") = .badRequest 400
      "Please provide valid text content for analysis (minimum 10 characters)." :=
  extractSkills_rejects_short_input (some "  short  ")
    (Or.inr ⟨"  short  ", rfl, by decide⟩)

/-! ## `middleware/errorHandler.js` -/

/-- The global error-handling middleware as a function from the failure's
`name` and `message` (the empty message models a falsy `err.message`) to the
response status and message, following the source's classification order. -/
def errorHandler (name message : String) : ℕ × String :=
  if message ≠ "" ∧ containsSub message "Unexpected end of form" then
    (400, "Upload interrupted or incomplete. Please try uploading again.")
  else if message ≠ "" ∧ containsSub message "Missing boundary" then
    (400, "Invalid form data. Please ensure you are uploading a file correctly.")
  else if name = "ValidationError" then (400, message)
  else if name = "CastError" then (400, "Invalid data format")
  else if name = "MulterError" then
    (400, if message ≠ "" then message else "File upload error")
  else if message ≠ "" then
    (if containsSub message "not found" || containsSub message "does not exist" then 404
     else if containsSub message "unauthorized" || containsSub message "not authorized" then 401
     else if containsSub message "forbidden" || containsSub message "access denied" then 403
     else if containsSub message "validation" || containsSub message "invalid" then 400
     else if containsSub message "timeout" || containsSub message "timed out" then 504
     else 500, message)
  else (500, "Internal server error")

/-- The timeout failure message raised by `aiService.extractSkills` on
`ECONNABORTED`. -/
def timeoutMsg : String := "AI service request timed out. Please try again."

/-- The connection-refused failure message raised by `aiService.extractSkills`
on `ECONNREFUSED`. -/
def unavailableMsg : String :=
  "AI service is not available. Please ensure the FastAPI service is running."

/-- C6: a failure matching no earlier classification rule resolves to 504
with its own message when that message contains "timeout" or "timed out" —
in particular the AI client's timeout failure — while the connection-refused
failure message matches no keyword at all and falls to the 500 default with
its message. -/
theorem errorHandler_timeout_and_unavailable :
    (∀ name message : String, message ≠ "" →
      containsSub message "Unexpected end of form" = false →
      containsSub message "Missing boundary" = false →
      name ≠ "ValidationError" → name ≠ "CastError" → name ≠ "MulterError" →
      containsSub message "not found" = false →
      containsSub message "does not exist" = false →
      containsSub message "unauthorized" = false →
      containsSub message "not authorized" = false →
      containsSub message "forbidden" = false →
      containsSub message "access denied" = false →
      containsSub message "validation" = false →
      containsSub message "invalid" = false →
      (containsSub message "timeout" = true ∨ containsSub message "timed out" = true) →
      errorHandler name message = (504, message)) ∧
    errorHandler "Error" timeoutMsg = (504, timeoutMsg) ∧
    errorHandler "Error" unavailableMsg = (500, unavailableMsg) := by
  refine ⟨?_, by decide, by decide⟩
  intro name message hne h1 h2 h3 h4 h5 k1 k2 k3 k4 k5 k6 k7 k8 kt
  unfold errorHandler
  rw [if_neg (by simp [h1]), if_neg (by simp [h2]), if_neg h3, if_neg h4, if_neg h5,
    if_pos hne]
  have hkt : (containsSub message "timeout" || containsSub message "timed out") = true := by
    rcases kt with kt | kt <;> simp [kt]
  simp [k1, k2, k3, k4, k5, k6, k7, k8, hkt]

/-- Witness for C6's general clause at the concrete unmatched message
`"upstream gateway timeout"`. -/
theorem errorHandler_timeout_witness :
    errorHandler "Error" "upstream gateway timeout" =
      (504, "upstream gateway timeout") :=
  errorHandler_timeout_and_unavailable.1 "Error" "upstream gateway timeout"
    (by decide) (by decide) (by decide) (by decide) (by decide) (by decide)
    (by decide) (by decide) (by decide) (by decide) (by decide) (by decide)
    (by decide) (by decide) (Or.inl (by decide))

/-! ## `middleware/upload.js` and the upload route's middleware wrapper

`multer` is configured with `fileFilter` (accept only
`mimetype === 'application/pdf'`) and `limits.fileSize = 5 * 1024 * 1024`.
Per multer's contract the filter runs when the file field is encountered — a
rejected file is never buffered, so the size limit applies to accepted files
— and a violated limit surfaces as a `MulterError` with code
`LIMIT_FILE_SIZE`.  The upload route wraps the middleware and routes any
error into `handleUploadErrors`; the route handler (PDF parsing, skill
extraction) only runs when the middleware passed. -/

/-- An uploaded file as the middleware sees it. -/
structure UploadedFile where
  mimetype : String
  size : ℕ
deriving DecidableEq

/-- `fileFilter`: accept exactly `application/pdf`, else
`cb(new Error('Only PDF files are allowed'), false)`. -/
def fileFilter (f : UploadedFile) : Except String Unit :=
  if f.mimetype = "application/pdf" then .ok ()
  else .error "Only PDF files are allowed"

/-- Errors the wrapped multer middleware can hand to `handleUploadErrors`:
a `MulterError` with its code and message, or a plain error with its message. -/
inductive UploadError
  | multerError (code message : String)
  | genericError (message : String)
deriving DecidableEq

/-- The trailing `if (error && error.message)` block of `handleUploadErrors`,
run for every error kind. -/
def uploadMessageChecks (message : String) : Option (ℕ × String) :=
  if containsSub message "Unexpected end of form" then
    some (400, "Upload interrupted or incomplete. Please try uploading again.")
  else if containsSub message "Missing boundary" then
    some (400, "Invalid form data. Please ensure you are uploading a file correctly.")
  else if message = "Only PDF files are allowed" then
    some (400, "Invalid file type. Please upload a PDF file.")
  else none

/-- `handleUploadErrors(error, req, res, next)`: `some (status, message)` is a
direct response, `none` is `next(error)` (falling through to the global error
handler).  The multer-specific codes are checked first; any error not handled
there is run through the message checks. -/
def handleUploadErrors (e : UploadError) : Option (ℕ × String) :=
  match e with
  | .multerError code message =>
    if code = "LIMIT_FILE_SIZE" then
      some (400, "File too large. Maximum size is 5MB.")
    else if code = "LIMIT_FILE_COUNT" then
      some (400, "Too many files. Please upload only one file.")
    else if code = "LIMIT_UNEXPECTED_FILE" then
      some (400, "Unexpected field name. Please use \"resume\" as the field name.")
    else uploadMessageChecks message
  | .genericError message => uploadMessageChecks message

/-- Result of running the upload middleware stage for one file: a direct
response, a forward to the global error handler, or entry into the route
handler (where PDF parsing and skill extraction happen). -/
inductive UploadOutcome
  | response (status : ℕ) (message : String)
  | forwarded (e : UploadError)
  | handlerReached (f : UploadedFile)
deriving DecidableEq

/-- Turn `handleUploadErrors`' result into the request outcome. -/
def routeUploadError (e : UploadError) : UploadOutcome :=
  match handleUploadErrors e with
  | some (status, message) => .response status message
  | none => .forwarded e

/-- The middleware stage of `POST /api/v1/resume/upload` for a single file
under the `resume` field: `fileFilter` first (multer consults it before
buffering the file), then the 5 MiB size limit, then the route handler. -/
def uploadMiddleware (f : UploadedFile) : UploadOutcome :=
  match fileFilter f with
  | .error msg => routeUploadError (.genericError msg)
  | .ok _ =>
    if f.size > 5 * 1024 * 1024 then
      routeUploadError (.multerError "LIMIT_FILE_SIZE" "File too large")
    else .handlerReached f

/-- C7: an upload whose MIME type is not exactly `application/pdf` is
answered 400 `"Invalid file type. Please upload a PDF file."`, and an
accepted PDF larger than 5 × 1024 × 1024 bytes is answered 400
`"File too large. Maximum size is 5MB."`; in both cases the route handler —
and with it PDF parsing and skill extraction — is never reached. -/
theorem uploadMiddleware_rejections (f : UploadedFile) :
    (f.mimetype ≠ "application/pdf" →
      uploadMiddleware f = .response 400 "Invalid file type. Please upload a PDF file.") ∧
    (f.mimetype = "application/pdf" → f.size > 5 * 1024 * 1024 →
      uploadMiddleware f = .response 400 "File too large. Maximum size is 5MB.") ∧
    ((f.mimetype ≠ "application/pdf" ∨ f.size > 5 * 1024 * 1024) →
      ∀ g : UploadedFile, uploadMiddleware f ≠ .handlerReached g) := by
  refine ⟨?_, ?_, ?_⟩
  · intro hm
    unfold uploadMiddleware fileFilter
    rw [if_neg hm]
    rfl
  · intro hm hs
    unfold uploadMiddleware fileFilter
    rw [if_pos hm]
    show (if f.size > 5 * 1024 * 1024 then
      routeUploadError (.multerError "LIMIT_FILE_SIZE" "File too large") else .handlerReached f) = _
    rw [if_pos hs]
    rfl
  · intro hviol g
    unfold uploadMiddleware fileFilter
    by_cases hm : f.mimetype = "application/pdf"
    · rcases hviol with hv | hv
      · exact absurd hm hv
      · rw [if_pos hm]
        show (if f.size > 5 * 1024 * 1024 then
          routeUploadError (.multerError "LIMIT_FILE_SIZE" "File too large") else .handlerReached f) ≠ _
        rw [if_pos hv]
        exact fun h => UploadOutcome.noConfusion h
    · rw [if_neg hm]
      exact fun h => UploadOutcome.noConfusion h

/-- Witness for C7 at concrete files: a 10-byte PNG and a 6 MiB PDF. -/
theorem uploadMiddleware_rejections_witness :
    uploadMiddleware ⟨"image/png", 10⟩ =
      .response 400 "Invalid file type. Please upload a PDF file." ∧
    uploadMiddleware ⟨"application/pdf", 6 * 1024 * 1024⟩ =
      .response 400 "File too large. Maximum size is 5MB." ∧
    uploadMiddleware ⟨"image/png", 10⟩ ≠ .handlerReached ⟨"image/png", 10⟩ :=
  ⟨(uploadMiddleware_rejections ⟨"image/png", 10⟩).1 (by decide),
   (uploadMiddleware_rejections ⟨"application/pdf", 6 * 1024 * 1024⟩).2.1
     (by decide) (by decide),
   (uploadMiddleware_rejections ⟨"image/png", 10⟩).2.2 (Or.inl (by decide))
     ⟨"image/png", 10⟩⟩

end SkillLens
